import Mathlib

/-!
Verification of the botgrid grid-trading bot.

Shallow embedding of the core modules:
 * `src/modules/bybit_client.py` — `format_price` / `format_quantity`
 * `src/modules/grid_logic.py`   — `calculate_grid_levels`, `should_recenter`,
                                   `setup_grid`, `recenter_grid`
 * `src/modules/risk_manager.py` — equity tracking, drawdown kill-switch,
                                   exposure checks

Numeric values (prices, quantities, capital) are modelled as exact
rationals (ℚ).  Python's `int(x)` truncates toward zero; `pytrunc`
models it.  The Python formatters return a decimal string with exactly
as many fractional digits as the tick/step string has, and every
integer multiple of the tick/step fits in that many digits, so the
string round-trip through `float(...)` in `grid_logic.py` is the
identity on the value; the formatters are therefore modelled directly
as ℚ → ℚ maps.
-/

namespace Botgrid

/-- Python `int(q)` on an exact rational: truncation toward zero. -/
def pytrunc (q : ℚ) : ℤ := if 0 ≤ q then ⌊q⌋ else ⌈q⌉

theorem pytrunc_le_of_nonneg {q : ℚ} (h : 0 ≤ q) : (pytrunc q : ℚ) ≤ q := by
  simp only [pytrunc, if_pos h]
  exact Int.floor_le q

theorem pytrunc_nonpos_of_neg {q : ℚ} (h : q < 0) : pytrunc q ≤ 0 := by
  simp only [pytrunc, if_neg (not_le.mpr h)]
  exact Int.ceil_le.mpr (by exact_mod_cast h.le)

theorem sub_one_lt_pytrunc {q : ℚ} (h : 0 ≤ q) : q - 1 < (pytrunc q : ℚ) := by
  simp only [pytrunc, if_pos h]
  exact Int.sub_one_lt_floor q

theorem pytrunc_intCast (n : ℤ) : pytrunc (n : ℚ) = n := by
  by_cases h : (0 : ℚ) ≤ (n : ℚ)
  · simp [pytrunc, h, Int.floor_intCast]
  · simp [pytrunc, h, Int.ceil_intCast]

theorem pytrunc_lt_of_lt {q : ℚ} {n : ℤ} (h0 : 0 ≤ q) (h : q < n) : pytrunc q < n := by
  simp only [pytrunc, if_pos h0]
  exact Int.floor_lt.mpr h

/-- Model of `BybitClient.format_price`: `int(price / tick) * tick`, rendered to a
decimal string whose precision is taken from the tick string (exact on
the rational value). -/
def format_price (price : ℚ) (tick_size : ℚ) : ℚ :=
  (pytrunc (price / tick_size) : ℚ) * tick_size

/-- Model of `BybitClient.format_quantity`: `int(qty / step) * step`, rendered to a
decimal string whose precision is taken from the step string (exact on
the rational value). -/
def format_quantity (qty : ℚ) (qty_step : ℚ) : ℚ :=
  (pytrunc (qty / qty_step) : ℚ) * qty_step

theorem format_price_le {price tick : ℚ} (hp : 0 ≤ price) (ht : 0 < tick) :
    format_price price tick ≤ price := by
  have hq : 0 ≤ price / tick := div_nonneg hp (le_of_lt ht)
  have h := pytrunc_le_of_nonneg hq
  have := mul_le_mul_of_nonneg_right h (le_of_lt ht)
  rwa [div_mul_cancel₀ _ (ne_of_gt ht)] at this

theorem format_price_idem (price tick : ℚ) :
    format_price (format_price price tick) tick = format_price price tick := by
  by_cases ht : tick = 0
  · simp [format_price, ht]
  · unfold format_price
    rw [mul_div_assoc, div_self ht, mul_one, pytrunc_intCast]

theorem format_quantity_le {qty step : ℚ} (hq : 0 ≤ qty) (hs : 0 < step) :
    format_quantity qty step ≤ qty := format_price_le hq hs

theorem format_quantity_idem (qty step : ℚ) :
    format_quantity (format_quantity qty step) step = format_quantity qty step :=
  format_price_idem qty step

/-- Lower bound for the tick-floored value of a nonnegative input:
it lies strictly above `x - tick`. -/
theorem format_price_gt {x tick : ℚ} (hx : 0 ≤ x) (ht : 0 < tick) :
    x - tick < format_price x tick := by
  have hq : 0 ≤ x / tick := div_nonneg hx (le_of_lt ht)
  have h := sub_one_lt_pytrunc hq
  have := mul_lt_mul_of_pos_right h ht
  rwa [sub_mul, one_mul, div_mul_cancel₀ _ (ne_of_gt ht)] at this

/-- The tick-floored value of a negative input is nonpositive. -/
theorem format_price_nonpos_of_neg {x tick : ℚ} (hx : x < 0) (ht : 0 < tick) :
    format_price x tick ≤ 0 := by
  have hq : x / tick < 0 := div_neg_of_neg_of_pos hx ht
  have h : (pytrunc (x / tick) : ℚ) ≤ 0 := by
    exact_mod_cast pytrunc_nonpos_of_neg hq
  exact mul_nonpos_of_nonpos_of_nonneg h (le_of_lt ht)

/-! ## Grid Strategy Engine (`grid_logic.py`) -/

/-- One profile entry of `config['grid']['profiles']`. -/
structure ProfileConfig where
  grid_spacing : ℚ
  target_levels : ℤ
  profit_target : ℚ
deriving DecidableEq

/-- The `config['recenter']` section. -/
structure RecenterConfig where
  price_deviation_pct : ℚ
  time_based_hours : ℚ
  one_side_hours : ℚ
  pump_dump_pct : ℚ
deriving DecidableEq

/-- A grid level dictionary as built by `calculate_grid_levels`. -/
structure GridLevel where
  level : ℤ
  price : ℚ
  qty : ℚ
  side : String
  notional : ℚ
deriving DecidableEq

/-- The mutable state of a `GridLogic` instance together with the
configuration values it reads.  Timestamps are rational seconds since
the epoch; `price_history` entries are `(price, timestamp)` pairs.
The profile table assumes, as the code does, that key "Normal" is
present (`profiles.get(profile, profiles['Normal'])`). -/
structure GridState where
  center_price : ℚ
  buy_levels : List GridLevel
  sell_levels : List GridLevel
  active_orders : List (String × GridLevel)
  min_order_qty : ℚ
  qty_step : ℚ
  tick_size : ℚ
  min_notional : ℚ
  last_recenter_time : ℚ
  price_history : List (ℚ × ℚ)
  max_history_points : ℕ
  profiles : List (String × ProfileConfig)
  grid_spacing_max : ℚ
  recfg : RecenterConfig
  initial_capital : ℚ
deriving DecidableEq

/-- Lookup `config['grid']['profiles'].get(profile, ...['Normal'])`. -/
def profileGet (st : GridState) (profile : String) : ProfileConfig :=
  ((st.profiles.lookup profile).getD
    ((st.profiles.lookup "Normal").getD ⟨0, 0, 0⟩))

/-- Model of `GridLogic.calculate_atr`: mean absolute consecutive delta over the
last `2 × period` history prices (0 when history is too short). -/
def calculate_atr (hist : List ℚ) (period : ℕ) : ℚ :=
  if hist.length < period * 2 then 0
  else
    let prices := hist.drop (hist.length - period * 2)
    let ranges := (prices.zip prices.tail).map (fun ab => |ab.2 - ab.1|)
    if ranges = [] then 0 else ranges.sum / ranges.length

/-- Model of `GridLogic.get_grid_spacing`: profile base spacing, scaled 1.2× and
capped when the ATR fraction of the (state) center price exceeds 0.5%. -/
def get_grid_spacing (st : GridState) (profile : String) : ℚ :=
  let base := (profileGet st profile).grid_spacing
  let atr := calculate_atr (st.price_history.map Prod.fst) 14
  if 0 < atr ∧ 0 < st.center_price then
    if 1 / 200 < atr / st.center_price then
      min (base * (12 / 10)) st.grid_spacing_max
    else base
  else base

/-- Model of `GridLogic._calculate_order_qty`. -/
def calculate_order_qty (st : GridState) (price budget : ℚ) : ℚ :=
  let qty := budget / price
  let qty := max qty st.min_order_qty
  let min_qty_for_notional := st.min_notional / price
  let qty := max qty min_qty_for_notional
  let qty_float := format_quantity qty st.qty_step
  if qty_float * price < st.min_notional then
    format_quantity min_qty_for_notional st.qty_step
  else qty_float

/-- Body of the BUY loop of `calculate_grid_levels` for index `i`
(`None` when the level is skipped by the notional filter). -/
def buyLevelAt (st : GridState) (center spacing budget : ℚ) (i : ℕ) :
    Option GridLevel :=
  let price := format_price (center * (1 - spacing * i)) st.tick_size
  let qty := calculate_order_qty st price budget
  if 0 < qty ∧ st.min_notional ≤ qty * price then
    some ⟨-(i : ℤ), price, qty, "Buy", qty * price⟩
  else none

/-- Body of the SELL loop of `calculate_grid_levels` for index `i`. -/
def sellLevelAt (st : GridState) (center spacing budget : ℚ) (i : ℕ) :
    Option GridLevel :=
  let price := format_price (center * (1 + spacing * i)) st.tick_size
  let qty := calculate_order_qty st price budget
  if 0 < qty ∧ st.min_notional ≤ qty * price then
    some ⟨(i : ℤ), price, qty, "Sell", qty * price⟩
  else none

/-- Python `range(1, n+1)` (empty when `n ≤ 0`). -/
def idxRange (n : ℤ) : List ℕ := (List.range n.toNat).map (· + 1)

/-- Model of `GridLogic.calculate_grid_levels`. -/
def calculate_grid_levels (st : GridState) (center_price : ℚ)
    (profile : String) (available_capital : ℚ) :
    List GridLevel × List GridLevel :=
  let pc := profileGet st profile
  let spacing := get_grid_spacing st profile
  let min_budget_per_level := st.min_notional * (11 / 10)
  let max_possible_levels := pytrunc (available_capital / min_budget_per_level)
  if max_possible_levels < 2 then ([], [])
  else
    let target_buy :=
      if max_possible_levels < pc.target_levels + pc.target_levels then
        Int.fdiv max_possible_levels 2
      else pc.target_levels
    let target_sell := target_buy
    let total_levels := target_buy + target_sell
    let budget_per_level := available_capital / (total_levels : ℚ)
    let buys := (idxRange target_buy).filterMap
      (buyLevelAt st center_price spacing budget_per_level)
    let sells := (idxRange target_sell).filterMap
      (sellLevelAt st center_price spacing budget_per_level)
    if buys = [] ∧ sells = [] then ([], []) else (buys, sells)

/-- A concrete engine state: tick size 1, quantity step 1, minimum
order quantity 1, minNotional 5, one profile "Normal" with spacing
0.1% and one target level per side, empty price history. -/
def cexState : GridState :=
  { center_price := 201 / 2
    buy_levels := []
    sell_levels := []
    active_orders := []
    min_order_qty := 1
    qty_step := 1
    tick_size := 1
    min_notional := 5
    last_recenter_time := 0
    price_history := []
    max_history_points := 720
    profiles := [("Normal", ⟨1 / 1000, 1, 1 / 100⟩)]
    grid_spacing_max := 1
    recfg := ⟨2 / 100, 48, 24, 5 / 100⟩
    initial_capital := 1000 }

theorem buyLevelAt_some {st : GridState} {c s b : ℚ} {i : ℕ} {l : GridLevel}
    (hc : 0 < c) (ht : 0 < st.tick_size) (hs : 0 < s) (hi : 1 ≤ i)
    (h : buyLevelAt st c s b i = some l) :
    st.min_notional ≤ l.qty * l.price ∧ l.price < c := by
  simp only [buyLevelAt] at h
  split at h
  case isFalse => exact absurd h (by simp)
  case isTrue hcond =>
    obtain ⟨-, hnot⟩ := hcond
    cases h
    refine ⟨hnot, ?_⟩
    show format_price (c * (1 - s * i)) st.tick_size < c
    have hraw : c * (1 - s * (i : ℚ)) < c := by
      have hsi : 0 < s * (i : ℚ) :=
        mul_pos hs (by exact_mod_cast Nat.lt_of_lt_of_le Nat.zero_lt_one hi)
      nlinarith
    rcases le_or_lt 0 (c * (1 - s * (i : ℚ))) with hr | hr
    · exact lt_of_le_of_lt (format_price_le hr ht) hraw
    · exact lt_of_le_of_lt (format_price_nonpos_of_neg hr ht) hc

theorem sellLevelAt_some {st : GridState} {c s b : ℚ} {i : ℕ} {l : GridLevel}
    (hc : 0 < c) (ht : 0 < st.tick_size) (hs : 0 < s) (hi : 1 ≤ i)
    (h : sellLevelAt st c s b i = some l) :
    st.min_notional ≤ l.qty * l.price ∧ c - st.tick_size < l.price := by
  simp only [sellLevelAt] at h
  split at h
  case isFalse => exact absurd h (by simp)
  case isTrue hcond =>
    obtain ⟨-, hnot⟩ := hcond
    cases h
    refine ⟨hnot, ?_⟩
    show c - st.tick_size < format_price (c * (1 + s * i)) st.tick_size
    have hraw : c < c * (1 + s * (i : ℚ)) := by
      have hsi : 0 < s * (i : ℚ) :=
        mul_pos hs (by exact_mod_cast Nat.lt_of_lt_of_le Nat.zero_lt_one hi)
      nlinarith
    have hr : (0 : ℚ) ≤ c * (1 + s * i) := le_of_lt (lt_trans hc hraw)
    calc c - st.tick_size < c * (1 + s * i) - st.tick_size := by linarith
      _ < format_price (c * (1 + s * i)) st.tick_size := format_price_gt hr ht

/-- The result of `calculate_grid_levels` is either the empty pair or a
pair of `filterMap`s over index ranges starting at 1. -/
theorem calculate_grid_levels_cases (st : GridState) (c : ℚ) (profile : String)
    (cap : ℚ) :
    calculate_grid_levels st c profile cap = ([], []) ∨
    ∃ budget : ℚ, ∃ nb ns : ℤ,
      calculate_grid_levels st c profile cap =
        ((idxRange nb).filterMap
            (buyLevelAt st c (get_grid_spacing st profile) budget),
         (idxRange ns).filterMap
            (sellLevelAt st c (get_grid_spacing st profile) budget)) := by
  simp only [calculate_grid_levels]
  split
  · exact Or.inl rfl
  · split
    · split
      · exact Or.inl rfl
      · exact Or.inr ⟨_, _, _, rfl⟩
    · split
      · exact Or.inl rfl
      · exact Or.inr ⟨_, _, _, rfl⟩

theorem one_le_of_mem_idxRange {i : ℕ} {n : ℤ} (h : i ∈ idxRange n) : 1 ≤ i := by
  unfold idxRange at h
  obtain ⟨k, -, hk⟩ := List.mem_map.mp h
  omega

/-- C1 (amended).  For every engine state with positive tick size, every
center price `> 0`, profile with positive effective spacing, and every
available capital: every returned buy level satisfies
`quantity × price ≥ minNotional` and has price strictly below the center
price, and every returned sell level satisfies
`quantity × price ≥ minNotional` and has price strictly above
`centerPrice − tickSize` (the tick-flooring can pull a sell price down to
or below the center price, so `> centerPrice` itself does not hold). -/
theorem c1_grid_level_bounds (st : GridState) (c : ℚ) (profile : String)
    (cap : ℚ) (hc : 0 < c) (ht : 0 < st.tick_size)
    (hs : 0 < get_grid_spacing st profile) :
    (∀ l ∈ (calculate_grid_levels st c profile cap).1,
        st.min_notional ≤ l.qty * l.price ∧ l.price < c) ∧
    (∀ l ∈ (calculate_grid_levels st c profile cap).2,
        st.min_notional ≤ l.qty * l.price ∧ c - st.tick_size < l.price) := by
  rcases calculate_grid_levels_cases st c profile cap with h | ⟨budget, nb, ns, h⟩
  · rw [h]; exact ⟨by simp, by simp⟩
  · rw [h]
    constructor
    · intro l hl
      obtain ⟨i, hi, hsome⟩ := List.mem_filterMap.mp hl
      exact buyLevelAt_some hc ht hs (one_le_of_mem_idxRange hi) hsome
    · intro l hl
      obtain ⟨i, hi, hsome⟩ := List.mem_filterMap.mp hl
      exact sellLevelAt_some hc ht hs (one_le_of_mem_idxRange hi) hsome

set_option maxRecDepth 40000 in
/-- C1 counterexample to the claim as stated: with tick size 1, center
price 100.5, spacing 0.1% and ample capital, the returned sell level has
price 100, which is NOT strictly above the center price. -/
theorem c1_counterexample :
    ¬ (∀ l ∈ (calculate_grid_levels cexState (201 / 2) "Normal" 1000).2,
          (201 : ℚ) / 2 < l.price) := by
  intro h
  have hm : (⟨1, 100, 5, "Sell", 500⟩ : GridLevel) ∈
      (calculate_grid_levels cexState (201 / 2) "Normal" 1000).2 := by
    with_unfolding_all decide
  exact absurd (h _ hm) (by norm_num)

/-- C1 witness: the amended theorem applied to the concrete state
`cexState`, center 100.5, capital 1000. -/
theorem c1_witness :
    (∀ l ∈ (calculate_grid_levels cexState (201 / 2) "Normal" 1000).1,
        cexState.min_notional ≤ l.qty * l.price ∧ l.price < 201 / 2) ∧
    (∀ l ∈ (calculate_grid_levels cexState (201 / 2) "Normal" 1000).2,
        cexState.min_notional ≤ l.qty * l.price ∧
          201 / 2 - cexState.tick_size < l.price) :=
  c1_grid_level_bounds cexState (201 / 2) "Normal" 1000
    (by norm_num) (by with_unfolding_all decide) (by with_unfolding_all decide)

/-- C9: `format_price` and `format_quantity` are idempotent, and for
every positive input and positive tick/step the formatted value never
exceeds the input (flooring, never rounding up). -/
theorem c9_format_idem_floor (x tick q step : ℚ) (hx : 0 < x) (ht : 0 < tick)
    (hq : 0 < q) (hs : 0 < step) :
    format_price (format_price x tick) tick = format_price x tick ∧
    format_price x tick ≤ x ∧
    format_quantity (format_quantity q step) step = format_quantity q step ∧
    format_quantity q step ≤ q :=
  ⟨format_price_idem x tick, format_price_le hx.le ht,
   format_quantity_idem q step, format_quantity_le hq.le hs⟩

/-- C9 witness: price 2.34567 with tick 0.001, quantity 7.77 with step 0.1. -/
theorem c9_witness :
    format_price (format_price (234567 / 100000) (1 / 1000)) (1 / 1000) =
        format_price (234567 / 100000) (1 / 1000) ∧
    format_price (234567 / 100000) (1 / 1000) ≤ 234567 / 100000 ∧
    format_quantity (format_quantity (777 / 100) (1 / 10)) (1 / 10) =
        format_quantity (777 / 100) (1 / 10) ∧
    format_quantity (777 / 100) (1 / 10) ≤ 777 / 100 :=
  c9_format_idem_floor (234567 / 100000) (1 / 1000) (777 / 100) (1 / 10)
    (by norm_num) (by norm_num) (by norm_num) (by norm_num)

/-- C7: whenever `0 ≤ availableCapital < 2 × minNotional × 1.1`,
`calculate_grid_levels` returns two empty sequences, for every center
price and profile. -/
theorem c7_insufficient_capital (st : GridState) (center : ℚ)
    (profile : String) (cap : ℚ) (h0 : 0 ≤ cap)
    (h : cap < 2 * (st.min_notional * (11 / 10))) :
    calculate_grid_levels st center profile cap = ([], []) := by
  have hmb : pytrunc (cap / (st.min_notional * (11 / 10))) < 2 := by
    rcases le_or_lt (st.min_notional * (11 / 10)) 0 with hmb0 | hmbpos
    · exfalso; nlinarith
    · have hq0 : 0 ≤ cap / (st.min_notional * (11 / 10)) :=
        div_nonneg h0 hmbpos.le
      have hq2 : cap / (st.min_notional * (11 / 10)) < ((2 : ℤ) : ℚ) := by
        rw [div_lt_iff₀ hmbpos]
        push_cast
        linarith
      exact pytrunc_lt_of_lt hq0 hq2
  simp only [calculate_grid_levels]
  rw [if_pos hmb]

/-- C7 witness: minNotional 5, so the cutoff is 11; capital 10 yields no
levels. -/
theorem c7_witness :
    calculate_grid_levels cexState (201 / 2) "Normal" 10 = ([], []) :=
  c7_insufficient_capital cexState (201 / 2) "Normal" 10 (by norm_num)
    (by norm_num [cexState])

/-! ## Risk Controller (`risk_manager.py`)

State of a `RiskManager` instance, together with the configuration it
reads.  Calendar days are modelled as integers (`last_equity_check`
only ever feeds `.date()` comparisons); external I/O is passed in as
arguments (`Option` encodes a falsy result or a raised exception in the
fetch), and outgoing side effects (order cancellation, persisted event
records) are collected in a list. -/

structure RiskState where
  kill_switch_active : Bool
  kill_switch_reason : String
  daily_max_equity : ℚ
  last_equity_check_day : ℤ
  current_exposure_usdt : ℚ
  total_equity_usdt : ℚ
  max_exposure_pct : ℚ
  kill_switch_drawdown_pct : ℚ
  max_position_size_pct : ℚ
deriving DecidableEq

/-- An outgoing side effect of the Risk Controller. -/
inductive RiskEffect where
  | cancelAllOrders : RiskEffect
  | logEvent (etype severity : String) : RiskEffect
deriving DecidableEq

/-- Model of `RiskManager.trigger_kill_switch`: no-op when already active;
otherwise latch the switch, record the reason, cancel all orders and
persist a CRITICAL event record. -/
def trigger_kill_switch (s : RiskState) (reason : String) :
    RiskState × List RiskEffect :=
  if s.kill_switch_active then (s, [])
  else
    ({ s with kill_switch_active := true, kill_switch_reason := reason },
     [RiskEffect.cancelAllOrders, RiskEffect.logEvent "kill_switch" "CRITICAL"])

/-- Model of `RiskManager._check_drawdown`: with positive daily max equity,
trigger the kill-switch when
`(dailyMax − currentEquity) / dailyMax ≥ killSwitchDrawdownPct`.  The
reason string carries formatted numbers in the code; the model uses a
fixed label. -/
def check_drawdown (s : RiskState) : RiskState × List RiskEffect :=
  if s.daily_max_equity ≤ 0 then (s, [])
  else
    let drawdown :=
      (s.daily_max_equity - s.total_equity_usdt) / s.daily_max_equity
    if s.kill_switch_drawdown_pct ≤ drawdown then
      trigger_kill_switch s "Drawdown exceeds threshold"
    else (s, [])

/-- Model of `RiskManager.update_equity_tracking`: `wallet` is the fetched
totalEquity (`none` when the wallet call fails or raises), `today` the
current UTC day.  On a new day the daily max resets to current equity;
otherwise it ratchets upward; then the drawdown check runs. -/
def update_equity_tracking (s : RiskState) (wallet : Option ℚ) (today : ℤ) :
    RiskState × List RiskEffect :=
  match wallet with
  | none => (s, [])
  | some total_equity =>
    let s :=
      if today ≠ s.last_equity_check_day then
        { s with daily_max_equity := total_equity }
      else if s.daily_max_equity < total_equity then
        { s with daily_max_equity := total_equity }
      else s
    let s := { s with total_equity_usdt := total_equity,
                      last_equity_check_day := today }
    check_drawdown s

/-- Model of `RiskManager.deactivate_kill_switch`: no-op unless active; resets
the reason and the daily max equity to the currently tracked equity. -/
def deactivate_kill_switch (s : RiskState) : RiskState :=
  if s.kill_switch_active then
    { s with kill_switch_active := false, kill_switch_reason := "",
             daily_max_equity := s.total_equity_usdt }
  else s

/-- Model of `RiskManager.check_max_exposure`: positions are `(size, markPrice)`
pairs; `wallet` is the fetched totalEquity.  Returns the updated state,
the within-limits gate, and logged events.  Never touches the
kill-switch. -/
def check_max_exposure (s : RiskState) (positions : List (ℚ × ℚ))
    (wallet : Option ℚ) : RiskState × Bool × List RiskEffect :=
  let total_position_value :=
    (positions.map (fun p => if 0 < p.1 then p.1 * p.2 else 0)).sum
  let s := { s with current_exposure_usdt := total_position_value }
  let s :=
    match wallet with
    | some e => { s with total_equity_usdt := e }
    | none => s
  if s.total_equity_usdt ≤ 0 then (s, false, [])
  else
    let exposure_pct := s.current_exposure_usdt / s.total_equity_usdt
    if s.max_exposure_pct < exposure_pct then
      (s, false, [RiskEffect.logEvent "max_exposure" "WARNING"])
    else (s, true, [])

/-- Model of `RiskManager.validate_order_size`: refreshes equity if nonpositive,
then rejects an order whose value exceeds `maxPositionSizePct` of
equity. -/
def validate_order_size (s : RiskState) (qty price : ℚ) (wallet : Option ℚ) :
    RiskState × Bool :=
  let s :=
    if s.total_equity_usdt ≤ 0 then
      match wallet with
      | some e => { s with total_equity_usdt := e }
      | none => s
    else s
  if s.total_equity_usdt ≤ 0 then (s, false)
  else if s.max_position_size_pct < qty * price / s.total_equity_usdt then
    (s, false)
  else (s, true)

/-- C2: whenever `dailyMaxEquity > 0` and the kill-switch is not yet
active, the drawdown check activates it exactly when
`(dailyMaxEquity − currentEquity) / dailyMaxEquity ≥
killSwitchDrawdownPct`, and on that transition it cancels all resting
orders and persists a CRITICAL event record. -/
theorem c2_kill_switch_transition (s : RiskState)
    (hpos : 0 < s.daily_max_equity) (hoff : s.kill_switch_active = false) :
    ((check_drawdown s).1.kill_switch_active = true ↔
      s.kill_switch_drawdown_pct ≤
        (s.daily_max_equity - s.total_equity_usdt) / s.daily_max_equity) ∧
    (s.kill_switch_drawdown_pct ≤
        (s.daily_max_equity - s.total_equity_usdt) / s.daily_max_equity →
      RiskEffect.cancelAllOrders ∈ (check_drawdown s).2 ∧
      RiskEffect.logEvent "kill_switch" "CRITICAL" ∈ (check_drawdown s).2) := by
  have hnot : ¬ s.daily_max_equity ≤ 0 := not_le.mpr hpos
  by_cases hge : s.kill_switch_drawdown_pct ≤
      (s.daily_max_equity - s.total_equity_usdt) / s.daily_max_equity
  · constructor
    · simp [check_drawdown, hnot, hge, trigger_kill_switch, hoff]
    · intro h
      simp [check_drawdown, hnot, hge, trigger_kill_switch, hoff]
  · constructor
    · simp [check_drawdown, hnot, hge, hoff]
    · intro h
      exact absurd h hge

/-- C2 witness: the spec scenario `dailyMaxEquity = 1000`,
`currentEquity = 900`, threshold 5% — the 10% drawdown triggers. -/
theorem c2_witness :
    ((check_drawdown
        ⟨false, "", 1000, 0, 0, 900, 1 / 2, 5 / 100, 1 / 10⟩).1.kill_switch_active
      = true ↔
      (5 : ℚ) / 100 ≤ (1000 - 900) / 1000) ∧
    ((5 : ℚ) / 100 ≤ (1000 - 900) / 1000 →
      RiskEffect.cancelAllOrders ∈
        (check_drawdown ⟨false, "", 1000, 0, 0, 900, 1 / 2, 5 / 100, 1 / 10⟩).2 ∧
      RiskEffect.logEvent "kill_switch" "CRITICAL" ∈
        (check_drawdown ⟨false, "", 1000, 0, 0, 900, 1 / 2, 5 / 100, 1 / 10⟩).2) :=
  c2_kill_switch_transition ⟨false, "", 1000, 0, 0, 900, 1 / 2, 5 / 100, 1 / 10⟩
    (by norm_num) rfl

/-- C3: once `killSwitchActive` is true it stays true under every Risk
Controller operation — equity tracking updates (any wallet result and
day), drawdown checks, kill-switch triggers, exposure checks, and order
size validation — and only the explicit external deactivation call
resets it to false. -/
theorem trigger_kill_switch_active {t : RiskState}
    (ht : t.kill_switch_active = true) (r : String) :
    (trigger_kill_switch t r).1.kill_switch_active = true := by
  simp [trigger_kill_switch, ht]

theorem check_drawdown_active {t : RiskState}
    (ht : t.kill_switch_active = true) :
    (check_drawdown t).1.kill_switch_active = true := by
  simp only [check_drawdown, trigger_kill_switch]
  repeat' split
  all_goals exact ht

theorem update_equity_tracking_active {t : RiskState}
    (ht : t.kill_switch_active = true) (wallet : Option ℚ) (today : ℤ) :
    (update_equity_tracking t wallet today).1.kill_switch_active = true := by
  cases wallet with
  | none => exact ht
  | some e =>
    simp only [update_equity_tracking]
    apply check_drawdown_active
    show (if today ≠ t.last_equity_check_day then _ else _ :
        RiskState).kill_switch_active = true
    split
    · exact ht
    · split
      · exact ht
      · exact ht

theorem check_max_exposure_fields (t : RiskState) (positions : List (ℚ × ℚ))
    (wallet : Option ℚ) :
    (check_max_exposure t positions wallet).1.kill_switch_active =
        t.kill_switch_active ∧
    (check_max_exposure t positions wallet).1.daily_max_equity =
        t.daily_max_equity := by
  cases wallet with
  | none =>
    simp only [check_max_exposure]
    split
    · exact ⟨rfl, rfl⟩
    · split
      · exact ⟨rfl, rfl⟩
      · exact ⟨rfl, rfl⟩
  | some e =>
    simp only [check_max_exposure]
    split
    · exact ⟨rfl, rfl⟩
    · split
      · exact ⟨rfl, rfl⟩
      · exact ⟨rfl, rfl⟩

theorem validate_order_size_active {t : RiskState}
    (ht : t.kill_switch_active = true) (qty price : ℚ) (wallet : Option ℚ) :
    (validate_order_size t qty price wallet).1.kill_switch_active = true := by
  cases wallet with
  | none =>
    simp only [validate_order_size]
    repeat' split
    all_goals exact ht
  | some e =>
    simp only [validate_order_size]
    repeat' split
    all_goals exact ht

theorem c3_kill_switch_latch (s : RiskState) (reason : String)
    (wallet wallet' wallet'' : Option ℚ) (today : ℤ)
    (positions : List (ℚ × ℚ)) (qty price : ℚ)
    (hon : s.kill_switch_active = true) :
    (update_equity_tracking s wallet today).1.kill_switch_active = true ∧
    (check_drawdown s).1.kill_switch_active = true ∧
    (trigger_kill_switch s reason).1.kill_switch_active = true ∧
    (check_max_exposure s positions wallet').1.kill_switch_active = true ∧
    (validate_order_size s qty price wallet'').1.kill_switch_active = true ∧
    (deactivate_kill_switch s).kill_switch_active = false :=
  ⟨update_equity_tracking_active hon wallet today,
   check_drawdown_active hon,
   trigger_kill_switch_active hon reason,
   by rw [(check_max_exposure_fields s positions wallet').1, hon],
   validate_order_size_active hon qty price wallet'',
   by simp [deactivate_kill_switch, hon]⟩

/-- C3 witness: a concrete triggered state stays triggered under each
operation and is cleared only by deactivation. -/
theorem c3_witness :
    (update_equity_tracking ⟨true, "dd", 1000, 3, 50, 1200, 1 / 2, 5 / 100, 1 / 10⟩
        (some 1500) 4).1.kill_switch_active = true ∧
    (check_drawdown
        ⟨true, "dd", 1000, 3, 50, 1200, 1 / 2, 5 / 100, 1 / 10⟩).1.kill_switch_active
      = true ∧
    (trigger_kill_switch ⟨true, "dd", 1000, 3, 50, 1200, 1 / 2, 5 / 100, 1 / 10⟩
        "again").1.kill_switch_active = true ∧
    (check_max_exposure ⟨true, "dd", 1000, 3, 50, 1200, 1 / 2, 5 / 100, 1 / 10⟩
        [(2, 30)] (some 1100)).1.kill_switch_active = true ∧
    (validate_order_size ⟨true, "dd", 1000, 3, 50, 1200, 1 / 2, 5 / 100, 1 / 10⟩
        1 10 none).1.kill_switch_active = true ∧
    (deactivate_kill_switch
        ⟨true, "dd", 1000, 3, 50, 1200, 1 / 2, 5 / 100, 1 / 10⟩).kill_switch_active
      = false :=
  c3_kill_switch_latch ⟨true, "dd", 1000, 3, 50, 1200, 1 / 2, 5 / 100, 1 / 10⟩
    "again" (some 1500) (some 1100) none 4 [(2, 30)] 1 10 rfl

/-- C8: triggering an already-active kill-switch is a complete no-op —
no cancel call, no event record, no change to `killSwitchReason` or any
other state — and deactivating an inactive kill-switch changes no
state. -/
theorem c8_idempotent_transitions (s s' : RiskState) (reason : String)
    (hon : s.kill_switch_active = true)
    (hoff : s'.kill_switch_active = false) :
    trigger_kill_switch s reason = (s, []) ∧
    deactivate_kill_switch s' = s' := by
  constructor
  · simp [trigger_kill_switch, hon]
  · simp [deactivate_kill_switch, hoff]

/-- C8 witness: concrete active and inactive states. -/
theorem c8_witness :
    trigger_kill_switch ⟨true, "old reason", 1000, 3, 50, 900, 1 / 2, 5 / 100, 1 / 10⟩
        "new reason" =
      (⟨true, "old reason", 1000, 3, 50, 900, 1 / 2, 5 / 100, 1 / 10⟩, []) ∧
    deactivate_kill_switch ⟨false, "", 1000, 3, 50, 900, 1 / 2, 5 / 100, 1 / 10⟩ =
      ⟨false, "", 1000, 3, 50, 900, 1 / 2, 5 / 100, 1 / 10⟩ :=
  c8_idempotent_transitions
    ⟨true, "old reason", 1000, 3, 50, 900, 1 / 2, 5 / 100, 1 / 10⟩
    ⟨false, "", 1000, 3, 50, 900, 1 / 2, 5 / 100, 1 / 10⟩ "new reason" rfl rfl

/-- C5 counterexample to the claim as stated: `deactivate_kill_switch`
is a Risk Controller operation, and on a triggered state with current
equity 900 below the daily max 1000 it lowers `dailyMaxEquity` to 900
without any day rollover. -/
theorem c5_counterexample :
    (deactivate_kill_switch
        ⟨true, "dd", 1000, 3, 50, 900, 1 / 2, 5 / 100, 1 / 10⟩).daily_max_equity <
      (⟨true, "dd", 1000, 3, 50, 900, 1 / 2, 5 / 100, 1 / 10⟩ :
          RiskState).daily_max_equity ∧
    (deactivate_kill_switch
        ⟨true, "dd", 1000, 3, 50, 900, 1 / 2, 5 / 100, 1 / 10⟩).last_equity_check_day =
      (⟨true, "dd", 1000, 3, 50, 900, 1 / 2, 5 / 100, 1 / 10⟩ :
          RiskState).last_equity_check_day := by
  constructor
  · simp only [deactivate_kill_switch]
    norm_num
  · simp [deactivate_kill_switch]

/-- C5 (amended): within a single UTC calendar day, `dailyMaxEquity`
never decreases across equity-tracking updates, drawdown checks and
exposure checks; at a calendar-day rollover the first successful equity
update resets it to the current equity (and stamps the day, so the
reset happens exactly once).  The explicit kill-switch deactivation
call is excluded: it resets `dailyMaxEquity` to the current equity,
which may be lower. -/
theorem c5_daily_max_monotone (s : RiskState) (wallet : Option ℚ)
    (today : ℤ) (positions : List (ℚ × ℚ)) (wallet' : Option ℚ) (e : ℚ)
    (hsame : today = s.last_equity_check_day) :
    s.daily_max_equity ≤
        (update_equity_tracking s wallet today).1.daily_max_equity ∧
    (check_drawdown s).1.daily_max_equity = s.daily_max_equity ∧
    (check_max_exposure s positions wallet').1.daily_max_equity =
        s.daily_max_equity ∧
    (∀ d : ℤ, d ≠ s.last_equity_check_day →
      (update_equity_tracking s (some e) d).1.daily_max_equity = e ∧
      (update_equity_tracking s (some e) d).1.last_equity_check_day = d) := by
  have hdraw : ∀ t : RiskState,
      (check_drawdown t).1.daily_max_equity = t.daily_max_equity ∧
      (check_drawdown t).1.last_equity_check_day = t.last_equity_check_day := by
    intro t
    simp only [check_drawdown, trigger_kill_switch]
    split
    · exact ⟨rfl, rfl⟩
    · split
      · split
        · exact ⟨rfl, rfl⟩
        · exact ⟨rfl, rfl⟩
      · exact ⟨rfl, rfl⟩
  refine ⟨?_, (hdraw s).1, (check_max_exposure_fields s positions wallet').2, ?_⟩
  · cases wallet with
    | none => exact le_refl _
    | some eq' =>
      simp only [update_equity_tracking]
      rw [(hdraw _).1]
      show s.daily_max_equity ≤
        (if today ≠ s.last_equity_check_day then _ else _ : RiskState).daily_max_equity
      split
      · exact absurd hsame (by assumption)
      · split
        · exact le_of_lt (by assumption)
        · exact le_refl _
  · intro d hd
    simp only [update_equity_tracking]
    constructor
    · rw [(hdraw _).1]
      show (if d ≠ s.last_equity_check_day then _ else _ : RiskState).daily_max_equity = e
      rw [if_pos hd]
    · rw [(hdraw _).2]

/-- C5 witness: same-day update with higher equity ratchets the daily
max up; a rollover to day 5 resets it to the new equity. -/
theorem c5_witness :
    (⟨false, "", 1000, 3, 50, 900, 1 / 2, 5 / 100, 1 / 10⟩ :
        RiskState).daily_max_equity ≤
      (update_equity_tracking ⟨false, "", 1000, 3, 50, 900, 1 / 2, 5 / 100, 1 / 10⟩
          (some 1200) 3).1.daily_max_equity ∧
    (check_drawdown
        ⟨false, "", 1000, 3, 50, 900, 1 / 2, 5 / 100, 1 / 10⟩).1.daily_max_equity =
      (⟨false, "", 1000, 3, 50, 900, 1 / 2, 5 / 100, 1 / 10⟩ :
          RiskState).daily_max_equity ∧
    (check_max_exposure ⟨false, "", 1000, 3, 50, 900, 1 / 2, 5 / 100, 1 / 10⟩
        [(2, 30)] (some 950)).1.daily_max_equity =
      (⟨false, "", 1000, 3, 50, 900, 1 / 2, 5 / 100, 1 / 10⟩ :
          RiskState).daily_max_equity ∧
    (∀ d : ℤ, d ≠ (⟨false, "", 1000, 3, 50, 900, 1 / 2, 5 / 100, 1 / 10⟩ :
          RiskState).last_equity_check_day →
      (update_equity_tracking ⟨false, "", 1000, 3, 50, 900, 1 / 2, 5 / 100, 1 / 10⟩
          (some 800) d).1.daily_max_equity = 800 ∧
      (update_equity_tracking ⟨false, "", 1000, 3, 50, 900, 1 / 2, 5 / 100, 1 / 10⟩
          (some 800) d).1.last_equity_check_day = d) :=
  c5_daily_max_monotone ⟨false, "", 1000, 3, 50, 900, 1 / 2, 5 / 100, 1 / 10⟩
    (some 1200) 3 [(2, 30)] (some 950) 800 rfl

/-! ## Recenter decision (`GridLogic.should_recenter`)

The code returns `(bool, reason-string)`; the reason strings carry
formatted numbers, so the model represents which message was built by a
constructor tag. -/

/-- Which recenter reason string `should_recenter` built (`noneR` is the
empty string of a non-trigger return). -/
inductive Reason where
  | noneR : Reason
  | noActiveOrders : Reason
  | aboveBand : Reason
  | belowBand : Reason
  | timeBased : Reason
  | oneSideAbove : Reason
  | oneSideBelow : Reason
  | pumpDump : Reason
deriving DecidableEq

/-- History trimming in `get_current_price`: keep the last
`max_history_points` entries. -/
def trimHist (l : List (ℚ × ℚ)) (m : ℕ) : List (ℚ × ℚ) :=
  if m < l.length then l.drop (l.length - m) else l

/-- Buy prices extracted from the live open-order list `(side, price)`. -/
def buyPricesOf (orders : List (String × ℚ)) : List ℚ :=
  orders.filterMap (fun o => if o.1 = "Buy" then some o.2 else none)

/-- Sell prices extracted from the live open-order list. -/
def sellPricesOf (orders : List (String × ℚ)) : List ℚ :=
  orders.filterMap (fun o => if o.1 = "Sell" then some o.2 else none)

/-- Minimum of a price list (0 when empty; only used nonempty). -/
def minPrice (l : List ℚ) : ℚ := (l.min?).getD 0

/-- Maximum of a price list (0 when empty; only used nonempty). -/
def maxPrice (l : List ℚ) : ℚ := (l.max?).getD 0

/-- Conditions 3 (one-side dominance) and 4 (pump/dump) of
`should_recenter`, evaluated on the already-updated history. -/
def lateConditions (st : GridState) (now : ℚ)
    (hist : List (ℚ × ℚ)) : Bool × Reason :=
  let oneSide :=
    if 60 ≤ hist.length then
      let cutoff := now - st.recfg.one_side_hours * 3600
      let recent := hist.filter (fun p => cutoff ≤ p.2)
      if 0 < recent.length then
        let above := (recent.filter (fun p => st.center_price < p.1)).length
        let above_pct := (above : ℚ) / (recent.length : ℚ)
        if 4 / 5 < above_pct then (true, Reason.oneSideAbove)
        else if above_pct < 1 / 5 then (true, Reason.oneSideBelow)
        else (false, Reason.noneR)
      else (false, Reason.noneR)
    else (false, Reason.noneR)
  if oneSide.1 then oneSide
  else if 60 ≤ hist.length then
    let hour_ago := now - 3600
    let hp := hist.filter (fun p => hour_ago ≤ p.2)
    if 0 < hp.length then
      let min_price := minPrice (hp.map Prod.fst)
      let max_price := maxPrice (hp.map Prod.fst)
      let pump_pct := (max_price - min_price) / min_price
      if st.recfg.pump_dump_pct ≤ pump_pct then (true, Reason.pumpDump)
      else (false, Reason.noneR)
    else (false, Reason.noneR)
  else (false, Reason.noneR)

/-- Model of `GridLogic.should_recenter`: `price` is the fetched mark price (≤ 0
for a failed fetch), `orders` the live open orders (`none` when the
fetch raises).  Returns the updated state (history append) and the
decision. -/
def should_recenter (st : GridState) (now price : ℚ)
    (orders : Option (List (String × ℚ))) :
    GridState × Bool × Reason :=
  if price ≤ 0 then (st, false, Reason.noneR)
  else
    let hist2 :=
      trimHist (st.price_history ++ [(price, now)]) st.max_history_points
    let st := { st with price_history := hist2 }
    match orders with
    | none => (st, false, Reason.noneR)
    | some os =>
      if os.length = 0 then (st, true, Reason.noActiveOrders)
      else
        let buy_prices := buyPricesOf os
        let sell_prices := sellPricesOf os
        if buy_prices = [] ∨ sell_prices = [] then (st, false, Reason.noneR)
        else
          let lowest_buy := minPrice buy_prices
          let highest_sell := maxPrice sell_prices
          let deviation_pct := st.recfg.price_deviation_pct
          if highest_sell * (1 + deviation_pct) < price then
            (st, true, Reason.aboveBand)
          else if price < lowest_buy * (1 - deviation_pct) then
            (st, true, Reason.belowBand)
          else
            let hours_since := (now - st.last_recenter_time) / 3600
            if st.recfg.time_based_hours ≤ hours_since then
              (st, true, Reason.timeBased)
            else
              let late := lateConditions st now st.price_history
              (st, late.1, late.2)

/-- C6: when the live order set has orders on both sides, the current
price breaches the deviation band, and the time-based threshold is
simultaneously exceeded, `should_recenter` triggers with the
deviation-band reason — never the time-based one (fixed priority order
with short-circuiting). -/
theorem c6_deviation_before_time (st : GridState) (now price : ℚ)
    (os : List (String × ℚ))
    (hp : 0 < price)
    (hb : buyPricesOf os ≠ [])
    (hs : sellPricesOf os ≠ [])
    (hband :
      maxPrice (sellPricesOf os) * (1 + st.recfg.price_deviation_pct) < price ∨
      price < minPrice (buyPricesOf os) * (1 - st.recfg.price_deviation_pct))
    (htime : st.recfg.time_based_hours ≤ (now - st.last_recenter_time) / 3600) :
    (should_recenter st now price (some os)).2 = (true, Reason.aboveBand) ∨
    (should_recenter st now price (some os)).2 = (true, Reason.belowBand) := by
  have hnz : ¬ price ≤ 0 := not_le.mpr hp
  have hos : ¬ os.length = 0 := by
    intro h0
    rw [List.length_eq_zero] at h0
    apply hb
    rw [h0]
    rfl
  have hbs : ¬ (buyPricesOf os = [] ∨ sellPricesOf os = []) := by
    rintro (h | h)
    · exact hb h
    · exact hs h
  simp only [should_recenter, if_neg hnz, if_neg hos, if_neg hbs]
  rcases hband with h | h
  · left
    rw [if_pos h]
  · rcases lt_or_le (maxPrice (sellPricesOf os) *
        (1 + st.recfg.price_deviation_pct)) price with habove | habove
    · left
      rw [if_pos habove]
    · right
      rw [if_neg (not_lt.mpr habove), if_pos h]

/-- C6 witness: the spec scenario — buys at 98/99, sells at 101/102,
2% deviation, price 105 (above 102×1.02 = 104.04) while the 48h time
threshold is also long exceeded (200h since last recenter). -/
theorem c6_witness :
    (should_recenter cexState 720000 105
        (some [("Buy", 98), ("Buy", 99), ("Sell", 101), ("Sell", 102)])).2 =
      (true, Reason.aboveBand) ∨
    (should_recenter cexState 720000 105
        (some [("Buy", 98), ("Buy", 99), ("Sell", 101), ("Sell", 102)])).2 =
      (true, Reason.belowBand) :=
  c6_deviation_before_time cexState 720000 105
    [("Buy", 98), ("Buy", 99), ("Sell", 101), ("Sell", 102)]
    (by norm_num)
    (by with_unfolding_all decide)
    (by with_unfolding_all decide)
    (Or.inl (by with_unfolding_all decide))
    (by with_unfolding_all decide)

/-! ## Grid setup and recenter (`GridLogic.setup_grid`,
`GridLogic.recenter_grid`)

External calls are passed in through an environment record; `Option`
and `Bool` fields encode call failures and caught exceptions.  Database
writes matter here only as exception sources.  A per-level exception in
the placement loop and a placement result without an `orderId` both
leave the level unplaced (`place k = none`). -/

structure SetupEnv where
  mark_price : ℚ
  now : ℚ
  balance : Option ℚ
  cancel_ok : Bool
  place : ℕ → Option String
  db_ok : Bool

/-- Sequential placement loop: each successfully placed level is added
to `active_orders` under its order id; `k` is the running placement
index into `place`. -/
def placeLevels (orders : List (String × GridLevel)) (lvls : List GridLevel)
    (place : ℕ → Option String) (k : ℕ) : List (String × GridLevel) × ℕ :=
  match lvls with
  | [] => (orders, k)
  | l :: rest =>
    match place k with
    | some oid => placeLevels (orders ++ [(oid, l)]) rest place (k + 1)
    | none => placeLevels orders rest place (k + 1)

/-- The grid levels `setup_grid` computes: the state has already had
the price fetch recorded (history appended, center set), and the
configured initial capital is used regardless of the fetched balance. -/
def setupLevels (st : GridState) (profile : String) (env : SetupEnv) :
    List GridLevel × List GridLevel :=
  let hist2 :=
    trimHist (st.price_history ++ [(env.mark_price, env.now)])
      st.max_history_points
  let st := { st with price_history := hist2, center_price := env.mark_price }
  calculate_grid_levels st st.center_price profile st.initial_capital

/-- Model of `GridLogic.setup_grid`: fetch price (fail on non-positive), set the
center, fetch balance (an insufficient balance only logs — the
configured initial capital is used either way), compute levels (fail if
either side is empty), cancel existing orders, place every level
(per-level failures are swallowed), persist grid history and the setup
event (fail if the write raises), and report success. -/
def setup_grid (st0 : GridState) (profile : String) (env : SetupEnv) :
    GridState × Bool :=
  if env.mark_price ≤ 0 then (st0, false)
  else
    let hist2 :=
      trimHist (st0.price_history ++ [(env.mark_price, env.now)])
        st0.max_history_points
    let st := { st0 with price_history := hist2,
                         center_price := env.mark_price }
    match env.balance with
    | none => (st, false)
    | some _bal =>
      let lv := setupLevels st0 profile env
      let st := { st with buy_levels := lv.1, sell_levels := lv.2 }
      if lv.1 = [] ∨ lv.2 = [] then (st, false)
      else if ¬ env.cancel_ok then (st, false)
      else
        let pb := placeLevels st.active_orders lv.1 env.place 0
        let ps := placeLevels pb.1 lv.2 env.place pb.2
        let st := { st with active_orders := ps.1 }
        if env.db_ok then (st, true) else (st, false)

/-- External calls of `recenter_grid` around the embedded setup. -/
structure RecenterEnv where
  log_ok : Bool
  cancel_ok : Bool
  setup : SetupEnv
  now : ℚ

/-- Model of `GridLogic.recenter_grid`: log the trigger event, cancel all
orders, clear `active_orders`, re-run the full setup, and stamp
`last_recenter_time` only when the setup succeeded. -/
def recenter_grid (st : GridState) (profile : String) (env : RecenterEnv) :
    GridState × Bool :=
  if ¬ env.log_ok then (st, false)
  else if ¬ env.cancel_ok then (st, false)
  else
    let st := { st with active_orders := [] }
    let res := setup_grid st profile env.setup
    if res.2 then ({ res.1 with last_recenter_time := env.now }, true)
    else (res.1, false)

/-- The function `setup_grid` never touches `last_recenter_time`. -/
theorem setup_grid_last_recenter (st : GridState) (profile : String)
    (env : SetupEnv) :
    (setup_grid st profile env).1.last_recenter_time =
      st.last_recenter_time := by
  by_cases hmp : env.mark_price ≤ 0
  · simp [setup_grid, hmp]
  · cases henv : env.balance with
    | none => simp [setup_grid, hmp, henv]
    | some b =>
      simp only [setup_grid, if_neg hmp, henv]
      repeat' split
      all_goals rfl

/-- C4: whenever `recenter_grid` reports failure (its own guarded steps
fail, or the embedded setup fails or raises), `lastRecenterTime` after
the call equals its value before the call. -/
theorem c4_failed_recenter_keeps_time (st : GridState) (profile : String)
    (env : RecenterEnv) (hfail : (recenter_grid st profile env).2 = false) :
    (recenter_grid st profile env).1.last_recenter_time =
      st.last_recenter_time := by
  by_cases hlog : env.log_ok
  · by_cases hcan : env.cancel_ok
    · by_cases hsuc :
        (setup_grid { st with active_orders := [] } profile env.setup).2 = true
      · exfalso
        simp only [recenter_grid, hlog, hcan] at hfail
        rw [if_pos hsuc] at hfail
        simp at hfail
      · simp only [recenter_grid, hlog, hcan]
        rw [if_neg hsuc]
        exact setup_grid_last_recenter _ profile env.setup
    · simp [recenter_grid, hlog, hcan]
  · simp [recenter_grid, hlog]

/-- C4 witness: a recenter whose embedded setup fails at the price
fetch (mark price 0) reports failure and leaves `lastRecenterTime`
unchanged. -/
theorem c4_witness :
    (recenter_grid cexState "Normal"
        ⟨true, true, ⟨0, 50, some 1000, true, fun _ => none, true⟩,
          999⟩).1.last_recenter_time =
      cexState.last_recenter_time :=
  c4_failed_recenter_keeps_time cexState "Normal"
    ⟨true, true, ⟨0, 50, some 1000, true, fun _ => none, true⟩, 999⟩ rfl

/-- When every placement fails, the placement loop leaves the order map
unchanged and only advances the index. -/
theorem placeLevels_none (orders : List (String × GridLevel))
    (lvls : List GridLevel) (place : ℕ → Option String) (k : ℕ)
    (h : ∀ j, place j = none) :
    placeLevels orders lvls place k = (orders, k + lvls.length) := by
  induction lvls generalizing orders k with
  | nil => simp [placeLevels]
  | cons l rest ih =>
    rw [placeLevels, h k, ih orders (k + 1)]
    simp
    omega

/-- C10: whenever the price fetch, balance fetch, cancel and database
writes succeed and `calculate_grid_levels` returns nonempty buy and
sell sides, `setup_grid` reports success even when every single order
placement fails; `recenter_grid` therefore also reports success, leaves
`active_orders` empty, and advances `lastRecenterTime`. -/
theorem c10_success_without_orders (st : GridState) (profile : String)
    (env : RecenterEnv) (hlog : env.log_ok = true)
    (hcan : env.cancel_ok = true) (hmp : 0 < env.setup.mark_price)
    (b : ℚ) (hbal : env.setup.balance = some b)
    (hscan : env.setup.cancel_ok = true) (hdb : env.setup.db_ok = true)
    (hplace : ∀ k, env.setup.place k = none)
    (hbs : (setupLevels { st with active_orders := [] } profile env.setup).1 ≠ [])
    (hss : (setupLevels { st with active_orders := [] } profile env.setup).2 ≠ []) :
    (setup_grid { st with active_orders := [] } profile env.setup).2 = true ∧
    (recenter_grid st profile env).2 = true ∧
    (recenter_grid st profile env).1.active_orders = [] ∧
    (recenter_grid st profile env).1.last_recenter_time = env.now := by
  have hnm : ¬ env.setup.mark_price ≤ 0 := not_le.mpr hmp
  have hne : ¬ ((setupLevels { st with active_orders := [] } profile env.setup).1 = [] ∨
      (setupLevels { st with active_orders := [] } profile env.setup).2 = []) := by
    rintro (h | h)
    · exact hbs h
    · exact hss h
  have hsetup :
      setup_grid { st with active_orders := [] } profile env.setup =
        ({ { st with active_orders := [] } with
              price_history :=
                trimHist ({ st with active_orders := [] }.price_history ++
                    [(env.setup.mark_price, env.setup.now)])
                  { st with active_orders := [] }.max_history_points,
              center_price := env.setup.mark_price,
              buy_levels :=
                (setupLevels { st with active_orders := [] } profile env.setup).1,
              sell_levels :=
                (setupLevels { st with active_orders := [] } profile env.setup).2,
              active_orders := [] }, true) := by
    simp only [setup_grid, if_neg hnm, hbal, if_neg hne, hscan, hdb]
    rw [placeLevels_none _ _ _ _ hplace, placeLevels_none _ _ _ _ hplace]
    simp
  refine ⟨by rw [hsetup], ?_, ?_, ?_⟩ <;>
    simp only [recenter_grid, hlog, hcan] <;>
    rw [hsetup] <;> rfl

/-- C10 witness: the concrete state `cexState`, mark price 100.5,
every placement failing — setup still succeeds, the recenter succeeds
with an empty order map and a stamped recenter time. -/
theorem c10_witness :
    (setup_grid { cexState with active_orders := [] } "Normal"
        ⟨201 / 2, 50, some 1000, true, fun _ => none, true⟩).2 = true ∧
    (recenter_grid cexState "Normal"
        ⟨true, true, ⟨201 / 2, 50, some 1000, true, fun _ => none, true⟩,
          777⟩).2 = true ∧
    (recenter_grid cexState "Normal"
        ⟨true, true, ⟨201 / 2, 50, some 1000, true, fun _ => none, true⟩,
          777⟩).1.active_orders = [] ∧
    (recenter_grid cexState "Normal"
        ⟨true, true, ⟨201 / 2, 50, some 1000, true, fun _ => none, true⟩,
          777⟩).1.last_recenter_time = 777 :=
  c10_success_without_orders cexState "Normal"
    ⟨true, true, ⟨201 / 2, 50, some 1000, true, fun _ => none, true⟩, 777⟩
    rfl rfl (by norm_num) 1000 rfl rfl rfl (fun _ => rfl)
    (by with_unfolding_all decide) (by with_unfolding_all decide)

end Botgrid
